/-
  Verification of the mesh-chat daemon core (src/daemon).

  Shallow embedding of the event-processing engine: the event queue,
  the worker loop, the peer registry, the loopback transport and the
  C-boundary validation layer (meshcore_impl), translated from
  daemon.cpp, loopback_transport.cpp and meshcore_impl.cpp.

  The worker thread is modelled as a fuelled sequential loop over an
  explicit daemon state; handler side effects (registry mutations,
  callback invocations, transport transmissions) are recorded as an
  ordered action trace, mirroring the order in which the C++ handler
  bodies perform them.
-/
import Mathlib

namespace MeshChat

/-- Event types of the work queue (daemon.h, `enum class EventType`). -/
inductive EventType where
  | PeerConnected
  | PeerDisconnected
  | DataReceived
  | SendMessage
  | Shutdown
deriving DecidableEq, Repr

/-- One unit of work (daemon.h, `struct Event`).  `peer_id` models the
u64 id, `data` the byte payload (std::string), `timestamp` the i64
millisecond stamp. -/
structure Event where
  type : EventType
  peer_id : Nat
  peer_uid : String
  data : String
  timestamp : Int
deriving DecidableEq, Repr

/-- One registry entry (daemon.h, `struct PeerInfo`). -/
structure PeerInfo where
  peer_id : Nat
  uid : String
  connected : Bool
  connected_at : Int
deriving DecidableEq, Repr

/-- The peer registry: the `std::unordered_map<uint64_t, PeerInfo>`
modelled as an association list keyed by peer id. -/
abbrev Registry := List (Nat × PeerInfo)

/-- Model of `peers_[peer_id] = info`: overwrite the entry if the key is
present, otherwise add a new entry. -/
def registry_insert (ps : Registry) (k : Nat) (v : PeerInfo) : Registry :=
  if ps.any (fun q => q.1 == k) then
    ps.map (fun q => if q.1 == k then (k, v) else q)
  else
    ps ++ [(k, v)]

/-- Model of `peers_.erase(peer_id)`. -/
def registry_erase (ps : Registry) (k : Nat) : Registry :=
  ps.filter (fun q => !(q.1 == k))

/-- Model of `peers_.find(peer_id)` — first entry with the given key. -/
def registry_find (ps : Registry) (k : Nat) : Option (Nat × PeerInfo) :=
  ps.find? (fun q => q.1 == k)

/-- Which host callbacks are registered (daemon.h `DaemonCallbacks`:
each std::function may be empty, and each handler tests it before
invoking). -/
structure DaemonCallbacks where
  on_message : Bool
  on_status : Bool
  on_peer : Bool
deriving DecidableEq, Repr

/-- The transport implementations present in this repository: only the
loopback test transport exists (loopback_transport.cpp). -/
inductive TransportImpl where
  | loopback
deriving DecidableEq, Repr

/-- Daemon instance state (daemon.h private fields): the `running_` and
`busy_` flags, the FIFO event queue, the non-owning transport pointer,
the registered callbacks and the peer registry. -/
structure DaemonState where
  running : Bool
  busy : Bool
  queue : List Event
  transport : Option TransportImpl
  callbacks : DaemonCallbacks
  peers : Registry
deriving DecidableEq, Repr

/-- One observable side effect of a handler, in the order the handler
body performs it: a registry mutation (recorded with the registry value
it installs), a peer/message/status callback invocation, or a call into
the transport's send operation. -/
inductive Action where
  | registryUpdate (newPeers : Registry)
  | peerCb (peer_id : Nat) (uid : String) (connected : Bool)
  | messageCb (peer_id : Nat) (uid : String) (data : String) (timestamp : Int)
  | statusCb (status : Int) (msg : String)
  | transmit (peer_id : Nat) (data : String)
deriving DecidableEq, Repr

namespace Daemon

/-- Timestamp assignment at enqueue time (daemon.cpp lines 94-96): an
event whose timestamp is 0 receives the current time. -/
def stamp (now : Int) (e : Event) : Event :=
  if e.timestamp = 0 then { e with timestamp := now } else e

/-- Model of `Daemon::enqueue_event` (daemon.cpp lines 86-102): drop the event
when not running, otherwise stamp it and push it at the back of the
queue. -/
def enqueue_event (s : DaemonState) (e : Event) (now : Int) : DaemonState :=
  if s.running then
    { s with queue := s.queue ++ [stamp now e] }
  else
    s

/-- Submitting a whole list of events in order, with the same clock. -/
def enqueue_many (s : DaemonState) (evs : List Event) (now : Int) : DaemonState :=
  evs.foldl (fun t e => enqueue_event t e now) s

/-- Model of `Daemon::stop` (daemon.cpp lines 47-70): clear the running flag
(no-op on the state if already stopped — both branches leave
`running = false` and everything else unchanged). -/
def stop (s : DaemonState) : DaemonState :=
  { s with running := false }

/-- Model of `Daemon::get_peer_count` (daemon.cpp lines 126-129). -/
def get_peer_count (s : DaemonState) : Nat :=
  s.peers.length

/-- Model of `Daemon::add_peer` (daemon.cpp lines 131-141). -/
def add_peer (s : DaemonState) (peer_id : Nat) (uid : String) (now : Int) : DaemonState :=
  let info : PeerInfo :=
    { peer_id := peer_id, uid := uid, connected := true, connected_at := now }
  { s with peers := registry_insert s.peers peer_id info }

/-- Model of `Daemon::remove_peer` (daemon.cpp lines 143-146). -/
def remove_peer (s : DaemonState) (peer_id : Nat) : DaemonState :=
  { s with peers := registry_erase s.peers peer_id }

/-- Model of `Loopback_transport::send` (loopback_transport.cpp lines 14-22):
re-enqueue the payload as a DataReceived event for the same peer.  The
event is built by the default `Event()` constructor (timestamp 0, empty
uid) with type, peer_id and data then assigned. -/
def loopback_send (s : DaemonState) (peer_id : Nat) (data : String) (now : Int) : DaemonState :=
  enqueue_event s
    { type := EventType.DataReceived, peer_id := peer_id, peer_uid := "",
      data := data, timestamp := 0 } now

/-- Model of `Daemon::send_to_peer` (daemon.cpp lines 157-168): forward to the
transport if one is attached, else silently drop.  Returns the new
state and the transport-call trace. -/
def send_to_peer (s : DaemonState) (peer_id : Nat) (data : String) (now : Int) :
    DaemonState × List Action :=
  match s.transport with
  | none => (s, [])
  | some TransportImpl.loopback =>
      (loopback_send s peer_id data now, [Action.transmit peer_id data])

/-- Model of `Daemon::send_to_uid` (daemon.cpp lines 170-187): linear scan for
the first registry entry with the given uid (peer_id stays 0 when none
matches), then send only when the found id is nonzero. -/
def send_to_uid (s : DaemonState) (uid : String) (data : String) (now : Int) :
    DaemonState × List Action :=
  let peer_id := ((s.peers.find? (fun q => q.2.uid == uid)).map (fun q => q.1)).getD 0
  if peer_id ≠ 0 then send_to_peer s peer_id data now else (s, [])

/-- Model of `Daemon::handle_peer_connected` (daemon.cpp lines 246-257): add the
peer to the registry, then invoke the peer callback (if set) with the
event's uid and connected=true. -/
def handle_peer_connected (s : DaemonState) (e : Event) (now : Int) :
    DaemonState × List Action :=
  let s1 := add_peer s e.peer_id e.peer_uid now
  (s1, [Action.registryUpdate s1.peers] ++
    (if s.callbacks.on_peer then [Action.peerCb e.peer_id e.peer_uid true] else []))

/-- Model of `Daemon::handle_peer_disconnected` (daemon.cpp lines 259-279):
capture the uid before removal (empty when the peer is unknown), remove
the entry, then invoke the peer callback (if set) with connected=false. -/
def handle_peer_disconnected (s : DaemonState) (e : Event) :
    DaemonState × List Action :=
  let uid := ((registry_find s.peers e.peer_id).map (fun q => q.2.uid)).getD ("")
  let s1 := remove_peer s e.peer_id
  (s1, [Action.registryUpdate s1.peers] ++
    (if s.callbacks.on_peer then [Action.peerCb e.peer_id uid false] else []))

/-- Model of `Daemon::handle_data_received` (daemon.cpp lines 281-302): look up
the uid (empty when unknown) and invoke the message callback (if set);
no echo — the registry and queue are untouched. -/
def handle_data_received (s : DaemonState) (e : Event) :
    DaemonState × List Action :=
  let uid := ((registry_find s.peers e.peer_id).map (fun q => q.2.uid)).getD ("")
  (s, if s.callbacks.on_message then
        [Action.messageCb e.peer_id uid e.data e.timestamp] else [])

/-- Model of `Daemon::handle_send_message` (daemon.cpp lines 304-309). -/
def handle_send_message (s : DaemonState) (e : Event) (now : Int) :
    DaemonState × List Action :=
  send_to_peer s e.peer_id e.data now

/-- The dispatch switch of `Daemon::worker_loop` (daemon.cpp lines
214-235).  The Shutdown case clears the running flag and performs no
handler work. -/
def dispatch (s : DaemonState) (e : Event) (now : Int) : DaemonState × List Action :=
  match e.type with
  | EventType.PeerConnected => handle_peer_connected s e now
  | EventType.PeerDisconnected => handle_peer_disconnected s e
  | EventType.DataReceived => handle_data_received s e
  | EventType.SendMessage => handle_send_message s e now
  | EventType.Shutdown => ({ s with running := false }, [])

/-- Model of `Daemon::worker_loop` (daemon.cpp lines 193-240), fuelled.  Each
iteration: if not running, exit without popping; else pop the earliest
event, set busy, dispatch it, and — except in the Shutdown case, whose
`continue` skips the reset — clear busy.  Returns the final state and
the list of popped (dispatched) events in order.  The loop also stops
when the queue is empty (the real thread would block on the condition
variable waiting for more work). -/
def worker_loop (now : Int) : Nat → DaemonState → DaemonState × List Event
  | 0, s => (s, [])
  | Nat.succ fuel, s =>
    if s.running then
      match s.queue with
      | [] => (s, [])
      | e :: rest =>
        let s1 : DaemonState := { s with queue := rest, busy := true }
        let s2 := (dispatch s1 e now).1
        let s3 := if e.type = EventType.Shutdown then s2 else { s2 with busy := false }
        let out := worker_loop now fuel s3
        (out.1, e :: out.2)
    else
      (s, [])

end Daemon

/-- Model of `MESHCORE_MAX_MESSAGE_SIZE` (meshcore.h line 118). -/
def MESHCORE_MAX_MESSAGE_SIZE : Nat := 4096

/-- Model of `meshcore_error` (meshcore.h lines 105-112). -/
inductive meshcore_error where
  | OK
  | NOT_RUNNING
  | INVALID_PARAM
  | MESSAGE_TOO_LONG
  | PEER_NOT_FOUND
  | QUEUE_FULL
  | UNKNOWN
deriving DecidableEq, Repr

/-- Model of `meshcore_send_message_impl` (meshcore_impl.cpp lines 200-231) for a
valid (non-null) handle: check running, then null/zero-length payload,
then the size cap, and only then build a SendMessage event (default
constructor leaves timestamp 0) and enqueue it.  `message = none`
models a null payload pointer. -/
def meshcore_send_message_impl (s : DaemonState) (peer_id : Nat)
    (message : Option String) (len : Nat) (now : Int) :
    meshcore_error × DaemonState :=
  if s.running = false then
    (meshcore_error.NOT_RUNNING, s)
  else if message.isNone || len == 0 then
    (meshcore_error.INVALID_PARAM, s)
  else if len > MESHCORE_MAX_MESSAGE_SIZE then
    (meshcore_error.MESSAGE_TOO_LONG, s)
  else
    let ev : Event :=
      { type := EventType.SendMessage, peer_id := peer_id, peer_uid := "",
        data := (message.getD ("")).take len, timestamp := 0 }
    (meshcore_error.OK, Daemon.enqueue_event s ev now)

/-- Model of `meshcore_send_message_to_uid_impl` (meshcore_impl.cpp lines
233-259) for a valid handle: same validation (plus null uid), then a
direct `send_to_uid` that bypasses the queue, always answering OK.
The third component is the transport-call trace of the direct send. -/
def meshcore_send_message_to_uid_impl (s : DaemonState) (uid : Option String)
    (message : Option String) (len : Nat) (now : Int) :
    meshcore_error × DaemonState × List Action :=
  if s.running = false then
    (meshcore_error.NOT_RUNNING, s, [])
  else if uid.isNone || message.isNone || len == 0 then
    (meshcore_error.INVALID_PARAM, s, [])
  else if len > MESHCORE_MAX_MESSAGE_SIZE then
    (meshcore_error.MESSAGE_TOO_LONG, s, [])
  else
    let r := Daemon.send_to_uid s (uid.getD ("")) ((message.getD ("")).take len) now
    (meshcore_error.OK, r.1, r.2)

/-- A fully populated callback set. -/
def allCallbacks : DaemonCallbacks :=
  { on_message := true, on_status := true, on_peer := true }

/-- A freshly started daemon with the loopback transport attached, as
`meshcore_create` builds it (meshcore_impl.cpp lines 111-141). -/
def runningState : DaemonState :=
  { running := true, busy := false, queue := [], transport := some TransportImpl.loopback,
    callbacks := allCallbacks, peers := [] }

/-- A daemon that was never started (or was stopped). -/
def stoppedState : DaemonState :=
  { runningState with running := false }

/-- A DataReceived event carrying payload `P` for peer `p`. -/
def dataReceivedEvent (p : Nat) (P : String) (ts : Int) : Event :=
  { type := EventType.DataReceived, peer_id := p, peer_uid := "", data := P, timestamp := ts }

/-- A SendMessage event carrying payload `P` for peer `p`. -/
def sendMessageEvent (p : Nat) (P : String) (ts : Int) : Event :=
  { type := EventType.SendMessage, peer_id := p, peer_uid := "", data := P, timestamp := ts }

/-- A PeerConnected event for peer `p` with uid `u`. -/
def peerConnectedEvent (p : Nat) (u : String) (ts : Int) : Event :=
  { type := EventType.PeerConnected, peer_id := p, peer_uid := u, data := "", timestamp := ts }

/-- A PeerDisconnected event for peer `p`. -/
def peerDisconnectedEvent (p : Nat) (ts : Int) : Event :=
  { type := EventType.PeerDisconnected, peer_id := p, peer_uid := "", data := "", timestamp := ts }

/-- The internal Shutdown sentinel event. -/
def shutdownEvent : Event :=
  { type := EventType.Shutdown, peer_id := 0, peer_uid := "", data := "", timestamp := 1 }

/-- C2: submitting any event while the daemon is not running leaves the
whole daemon state unchanged — the queue, the peer registry, and every
other field are exactly as before, and the event can never reach a
handler, so no callback ever fires for it. -/
theorem enqueue_when_stopped_noop (s : DaemonState) (e : Event) (now : Int)
    (h : s.running = false) :
    Daemon.enqueue_event s e now = s := by
  simp [Daemon.enqueue_event, h]

/-- Witness for C2 at a concrete stopped daemon and a PeerConnected event. -/
theorem enqueue_when_stopped_noop_witness :
    stoppedState.running = false ∧
      Daemon.enqueue_event stoppedState (peerConnectedEvent 1 "alice" 0) 5 = stoppedState :=
  ⟨rfl, enqueue_when_stopped_noop stoppedState (peerConnectedEvent 1 "alice" 0) 5 rfl⟩

/-- C7: once `stop()` has taken effect (the running flag is false), the
worker loop exits immediately without popping any of the events still
queued: no remaining event is ever dispatched, and the state (queue
included) is left untouched — the queued events are discarded with it. -/
theorem stop_discards_queue (now : Int) (fuel : Nat) (s : DaemonState) :
    Daemon.worker_loop now fuel (Daemon.stop s) = (Daemon.stop s, []) := by
  cases fuel <;> simp [Daemon.worker_loop, Daemon.stop]

/-- C3: for a running daemon and a non-null payload, `send_message`
accepts exactly 4096 bytes (OK), rejects 4097 bytes with
MESSAGE_TOO_LONG, rejects a zero length with INVALID_PARAM, and rejects
a null payload with INVALID_PARAM at any length; every rejected call
returns the daemon state unchanged, so no event is enqueued. -/
theorem send_message_validation (s : DaemonState) (pid : Nat) (m : String)
    (len : Nat) (now : Int) (hrun : s.running = true) :
    (meshcore_send_message_impl s pid (some m) 4096 now).1 = meshcore_error.OK ∧
    meshcore_send_message_impl s pid (some m) 4097 now = (meshcore_error.MESSAGE_TOO_LONG, s) ∧
    meshcore_send_message_impl s pid (some m) 0 now = (meshcore_error.INVALID_PARAM, s) ∧
    meshcore_send_message_impl s pid none len now = (meshcore_error.INVALID_PARAM, s) := by
  refine ⟨?_, ?_, ?_, ?_⟩ <;>
    simp [meshcore_send_message_impl, MESHCORE_MAX_MESSAGE_SIZE, hrun]

/-- Witness for C3 at a concrete running daemon. -/
theorem send_message_validation_witness :
    runningState.running = true ∧
      ((meshcore_send_message_impl runningState 1 (some ("x")) 4096 0).1 = meshcore_error.OK ∧
      meshcore_send_message_impl runningState 1 (some ("x")) 4097 0 =
        (meshcore_error.MESSAGE_TOO_LONG, runningState) ∧
      meshcore_send_message_impl runningState 1 (some ("x")) 0 0 =
        (meshcore_error.INVALID_PARAM, runningState) ∧
      meshcore_send_message_impl runningState 1 none 7 0 =
        (meshcore_error.INVALID_PARAM, runningState)) :=
  ⟨rfl, send_message_validation runningState 1 "x" 7 0 rfl⟩

/-- Erasing a key that is not in the registry changes nothing. -/
theorem registry_erase_of_find_none (ps : Registry) (k : Nat)
    (h : registry_find ps k = none) :
    registry_erase ps k = ps := by
  unfold registry_find at h
  rw [List.find?_eq_none] at h
  unfold registry_erase
  rw [List.filter_eq_self]
  intro a ha
  simpa using h a ha

/-- Inserting a key that is not in the registry appends a fresh entry. -/
theorem registry_insert_of_find_none (ps : Registry) (k : Nat) (v : PeerInfo)
    (h : registry_find ps k = none) :
    registry_insert ps k v = ps ++ [(k, v)] := by
  unfold registry_find at h
  rw [List.find?_eq_none] at h
  unfold registry_insert
  have hany : (ps.any (fun q => q.1 == k)) = false := by
    rw [List.any_eq_false]
    intro q hq
    exact h q hq
  simp [hany]

/-- Looking up a freshly appended key finds the appended entry when the
key was absent before. -/
theorem registry_find_append (ps : Registry) (k : Nat) (v : PeerInfo)
    (h : registry_find ps k = none) :
    registry_find (ps ++ [(k, v)]) k = some (k, v) := by
  induction ps with
  | nil => simp [registry_find, List.find?]
  | cons q ps ih =>
    unfold registry_find at h ⊢
    rw [List.cons_append]
    rw [List.find?_cons] at h
    rw [List.find?_cons]
    by_cases hq : (q.1 == k) = true
    · rw [hq] at h
      exact absurd h (by simp)
    · rw [Bool.not_eq_true] at hq
      rw [hq] at h ⊢
      exact ih h

/-- Erasing a freshly appended key removes exactly the appended entry
when the key was absent before. -/
theorem registry_erase_append (ps : Registry) (k : Nat) (v : PeerInfo)
    (h : registry_find ps k = none) :
    registry_erase (ps ++ [(k, v)]) k = ps := by
  unfold registry_erase
  rw [List.filter_append]
  have h1 : List.filter (fun q => !(q.1 == k)) ps = ps := by
    have := registry_erase_of_find_none ps k h
    simpa [registry_erase] using this
  simp [h1, List.filter]

/-- C9: processing PeerDisconnected for a peer id that is not in the
registry leaves the registry (indeed the whole daemon state) unchanged,
yet still invokes the peer callback with that peer id, an empty UID and
connected=false — the callback is not suppressed for unknown peers. -/
theorem disconnect_unknown_peer (s : DaemonState) (e : Event)
    (hp : registry_find s.peers e.peer_id = none)
    (hcb : s.callbacks.on_peer = true) :
    Daemon.handle_peer_disconnected s e =
      (s, [Action.registryUpdate s.peers, Action.peerCb e.peer_id ("") false]) := by
  unfold Daemon.handle_peer_disconnected
  simp [hp, hcb, Daemon.remove_peer, registry_erase_of_find_none s.peers e.peer_id hp]

/-- Witness for C9: disconnecting unknown peer 7 on a running daemon
with an empty registry. -/
theorem disconnect_unknown_peer_witness :
    registry_find runningState.peers 7 = none ∧
      runningState.callbacks.on_peer = true ∧
      Daemon.handle_peer_disconnected runningState (peerDisconnectedEvent 7 0) =
        (runningState, [Action.registryUpdate [], Action.peerCb 7 "" false]) :=
  ⟨rfl, rfl, disconnect_unknown_peer runningState (peerDisconnectedEvent 7 0) rfl rfl⟩

/-- A running daemon whose only registry entry sits under peer id 0,
the sentinel value of `send_to_uid`'s scan. -/
def sentinelPeerState : DaemonState :=
  { runningState with peers :=
      [(0, { peer_id := 0, uid := "ghost", connected := true, connected_at := 0 })] }

/-- C10: on a running daemon with a valid payload, `send_message_to_uid`
answers OK even when the UID resolves to no transmission — when no
registry entry carries that uid (the scan leaves the resolved peer id at
its 0 sentinel), or the match yields peer id 0 itself: nothing reaches
the transport (empty transmission trace, state unchanged) and the
caller still gets OK, never PEER_NOT_FOUND. -/
theorem send_to_uid_ok_when_unresolved (s : DaemonState) (u m : String)
    (len : Nat) (now : Int) (hrun : s.running = true) (hlen0 : len ≠ 0)
    (hlen : len ≤ MESHCORE_MAX_MESSAGE_SIZE)
    (hfind : ((s.peers.find? (fun q => q.2.uid == u)).map (fun q => q.1)).getD 0 = 0) :
    meshcore_send_message_to_uid_impl s (some u) (some m) len now =
      (meshcore_error.OK, s, []) := by
  unfold meshcore_send_message_to_uid_impl
  rw [if_neg (by simp [hrun]), if_neg (by simp [hlen0]),
    if_neg (by simp only [MESHCORE_MAX_MESSAGE_SIZE] at hlen ⊢; omega)]
  unfold Daemon.send_to_uid
  simp [hfind]

/-- Witness for C10: a running daemon whose only registry entry has the
searched uid under the sentinel peer id 0. -/
theorem send_to_uid_ok_when_unresolved_witness :
    (sentinelPeerState.running = true ∧
      ((sentinelPeerState.peers.find? (fun q => q.2.uid == "ghost")).map
        (fun q => q.1)).getD 0 = 0) ∧
    meshcore_send_message_to_uid_impl sentinelPeerState (some ("ghost")) (some ("hi")) 2 0 =
      (meshcore_error.OK, sentinelPeerState, []) :=
  ⟨⟨rfl, rfl⟩,
    send_to_uid_ok_when_unresolved sentinelPeerState ("ghost") ("hi") 2 0 rfl
      (by decide) (by decide) rfl⟩

/-- C4: dispatching PeerConnected{p, u} and then PeerDisconnected{p}
(no other event touching p in between) on a daemon whose registry does
not yet know p restores the registry exactly (hence peer_count returns
to its prior value — 0 when starting empty), and the disconnect
dispatch's peer callback carries the uid u that was supplied at connect
time, the registry mutation (removal) standing before the callback in
the dispatch's effect trace. -/
theorem connect_disconnect_roundtrip (s : DaemonState) (p : Nat) (u : String)
    (ts1 ts2 now1 now2 : Int)
    (hp : registry_find s.peers p = none) (hcb : s.callbacks.on_peer = true) :
    ((Daemon.dispatch (Daemon.dispatch s (peerConnectedEvent p u ts1) now1).1
        (peerDisconnectedEvent p ts2) now2).1.peers = s.peers ∧
      Daemon.get_peer_count
        (Daemon.dispatch (Daemon.dispatch s (peerConnectedEvent p u ts1) now1).1
          (peerDisconnectedEvent p ts2) now2).1 = Daemon.get_peer_count s) ∧
    (Daemon.dispatch (Daemon.dispatch s (peerConnectedEvent p u ts1) now1).1
        (peerDisconnectedEvent p ts2) now2).2 =
      [Action.registryUpdate s.peers, Action.peerCb p u false] := by
  simp only [Daemon.dispatch, peerConnectedEvent, peerDisconnectedEvent,
    Daemon.handle_peer_connected, Daemon.handle_peer_disconnected,
    Daemon.add_peer, Daemon.remove_peer]
  rw [registry_insert_of_find_none _ _ _ hp]
  rw [registry_find_append _ _ _ hp, registry_erase_append _ _ _ hp]
  simp [hcb, Daemon.get_peer_count]

/-- Witness for C4: connect then disconnect peer 3 ("bob") on a fresh
running daemon. -/
theorem connect_disconnect_roundtrip_witness :
    (registry_find runningState.peers 3 = none ∧
      runningState.callbacks.on_peer = true) ∧
    (((Daemon.dispatch (Daemon.dispatch runningState (peerConnectedEvent 3 "bob" 1) 10).1
        (peerDisconnectedEvent 3 2) 20).1.peers = runningState.peers ∧
      Daemon.get_peer_count
        (Daemon.dispatch (Daemon.dispatch runningState (peerConnectedEvent 3 "bob" 1) 10).1
          (peerDisconnectedEvent 3 2) 20).1 = Daemon.get_peer_count runningState) ∧
    (Daemon.dispatch (Daemon.dispatch runningState (peerConnectedEvent 3 "bob" 1) 10).1
        (peerDisconnectedEvent 3 2) 20).2 =
      [Action.registryUpdate runningState.peers, Action.peerCb 3 "bob" false]) :=
  ⟨⟨rfl, rfl⟩, connect_disconnect_roundtrip runningState 3 "bob" 1 2 10 20 rfl rfl⟩

/-- Is this action a registry mutation? -/
def isRegistryUpdate : Action → Bool
  | Action.registryUpdate _ => true
  | _ => false

/-- Is this action a peer-callback invocation? -/
def isPeerCb : Action → Bool
  | Action.peerCb _ _ _ => true
  | _ => false

/-- Index of the first action satisfying `p` in an effect trace. -/
def firstIdx (p : Action → Bool) : List Action → Option Nat
  | [] => none
  | a :: rest => if p a then some 0 else (firstIdx p rest).map (fun n => n + 1)

/-- C6 as stated: in a dispatch's ordered effect trace, the registry
mutation (which makes the peer-count change observable) stands strictly
after the peer callback, so the change can be observed only once the
callback has completed. -/
def countChangeOnlyAfterCallback (acts : List Action) : Bool :=
  match firstIdx isRegistryUpdate acts, firstIdx isPeerCb acts with
  | some i, some j => decide (j < i)
  | _, _ => true

/-- The amended ordering: the registry mutation stands strictly before
the peer callback in the dispatch's ordered effect trace (dispatch
order: mutate state, then notify). -/
def mutationBeforeCallback (acts : List Action) : Bool :=
  match firstIdx isRegistryUpdate acts, firstIdx isPeerCb acts with
  | some i, some j => decide (i < j)
  | _, _ => false

/-- C6 counterexample: dispatching PeerConnected{1, "alice"} on a fresh
running daemon produces the effect trace [registry update, peer
callback] — the registry mutation completes (and the count change is
observable) strictly before the callback fires, refuting the claim that
the change can be observed only after the callback has completed. -/
theorem mutate_before_notify_counterexample :
    countChangeOnlyAfterCallback
      ((Daemon.dispatch runningState (peerConnectedEvent 1 "alice" 3) 3).2) = false := rfl

/-- C6 (amended): for every dispatched event that both mutates the
registry and fires a callback (PeerConnected, PeerDisconnected, with
the peer callback registered), the registry mutation stands strictly
before the callback invocation in the dispatch's ordered effect trace:
the dispatch order is mutate state, then notify. -/
theorem mutate_then_notify (s : DaemonState) (e : Event) (now : Int)
    (hcb : s.callbacks.on_peer = true)
    (ht : e.type = EventType.PeerConnected ∨ e.type = EventType.PeerDisconnected) :
    mutationBeforeCallback ((Daemon.dispatch s e now).2) = true := by
  rcases ht with h | h <;>
    simp [Daemon.dispatch, h, Daemon.handle_peer_connected,
      Daemon.handle_peer_disconnected, hcb, mutationBeforeCallback, firstIdx,
      isRegistryUpdate, isPeerCb]

/-- Witness for amended C6: a concrete PeerConnected dispatch. -/
theorem mutate_then_notify_witness :
    (runningState.callbacks.on_peer = true ∧
      (peerConnectedEvent 2 "eve" 0).type = EventType.PeerConnected) ∧
    mutationBeforeCallback
      ((Daemon.dispatch runningState (peerConnectedEvent 2 "eve" 0) 4).2) = true :=
  ⟨⟨rfl, rfl⟩,
    mutate_then_notify runningState (peerConnectedEvent 2 "eve" 0) 4 rfl (Or.inl rfl)⟩

/-- C8: on a running daemon, the loopback transport's send enqueues
exactly one new event — a DataReceived event for the same peer carrying
the same payload (stamped with the current time) — at the back of the
queue, changing nothing else; consequently a dispatched SendMessage
event, with the loopback transport attached, transmits the payload and
leaves that very DataReceived event queued for a second dispatch. -/
theorem loopback_roundtrip (s : DaemonState) (p : Nat) (P : String) (ts now : Int)
    (hr : s.running = true) (htr : s.transport = some TransportImpl.loopback) :
    Daemon.loopback_send s p P now =
      { s with queue := s.queue ++ [dataReceivedEvent p P now] } ∧
    Daemon.dispatch s (sendMessageEvent p P ts) now =
      ({ s with queue := s.queue ++ [dataReceivedEvent p P now] },
        [Action.transmit p P]) := by
  constructor
  · simp [Daemon.loopback_send, Daemon.enqueue_event, hr, Daemon.stamp, dataReceivedEvent]
  · simp [Daemon.dispatch, sendMessageEvent, Daemon.handle_send_message,
      Daemon.send_to_peer, htr, Daemon.loopback_send, Daemon.enqueue_event, hr,
      Daemon.stamp, dataReceivedEvent]

/-- Witness for C8: payload "ping" to peer 9 on a fresh running daemon
with the loopback transport. -/
theorem loopback_roundtrip_witness :
    (runningState.running = true ∧
      runningState.transport = some TransportImpl.loopback) ∧
    (Daemon.loopback_send runningState 9 "ping" 11 =
      { runningState with queue := runningState.queue ++ [dataReceivedEvent 9 "ping" 11] } ∧
    Daemon.dispatch runningState (sendMessageEvent 9 "ping" 7) 11 =
      ({ runningState with queue := runningState.queue ++ [dataReceivedEvent 9 "ping" 11] },
        [Action.transmit 9 "ping"])) :=
  ⟨⟨rfl, rfl⟩, loopback_roundtrip runningState 9 "ping" 7 11 rfl rfl⟩

/-- Stamping never changes an event's type. -/
theorem stamp_type (now : Int) (e : Event) : (Daemon.stamp now e).type = e.type := by
  unfold Daemon.stamp
  split <;> rfl

/-- Dispatching any non-Shutdown event preserves the running and busy
flags and only ever appends to the queue; the appended events (loopback
re-injections) are all DataReceived. -/
theorem dispatch_nonshutdown_frame (s : DaemonState) (e : Event) (now : Int)
    (h : e.type ≠ EventType.Shutdown) :
    (Daemon.dispatch s e now).1.running = s.running ∧
    (Daemon.dispatch s e now).1.busy = s.busy ∧
    ∃ extra : List Event, (Daemon.dispatch s e now).1.queue = s.queue ++ extra ∧
      ∀ x ∈ extra, x.type = EventType.DataReceived := by
  cases he : e.type with
  | PeerConnected =>
    refine ⟨?_, ?_, ⟨[], ?_, ?_⟩⟩ <;>
      simp [Daemon.dispatch, he, Daemon.handle_peer_connected, Daemon.add_peer]
  | PeerDisconnected =>
    refine ⟨?_, ?_, ⟨[], ?_, ?_⟩⟩ <;>
      simp [Daemon.dispatch, he, Daemon.handle_peer_disconnected, Daemon.remove_peer]
  | DataReceived =>
    refine ⟨?_, ?_, ⟨[], ?_, ?_⟩⟩ <;>
      simp [Daemon.dispatch, he, Daemon.handle_data_received]
  | SendMessage =>
    cases htr : s.transport with
    | none =>
      refine ⟨?_, ?_, ⟨[], ?_, ?_⟩⟩ <;>
        simp [Daemon.dispatch, he, Daemon.handle_send_message, Daemon.send_to_peer, htr]
    | some t =>
      cases t
      cases hr : s.running with
      | false =>
        refine ⟨?_, ?_, ⟨[], ?_, ?_⟩⟩ <;>
          simp [Daemon.dispatch, he, Daemon.handle_send_message, Daemon.send_to_peer,
            htr, Daemon.loopback_send, Daemon.enqueue_event, hr]
      | true =>
        refine ⟨?_, ?_, ⟨[Daemon.stamp now (dataReceivedEvent e.peer_id e.data 0)], ?_, ?_⟩⟩ <;>
          simp [Daemon.dispatch, he, Daemon.handle_send_message, Daemon.send_to_peer,
            htr, Daemon.loopback_send, Daemon.enqueue_event, hr, dataReceivedEvent,
            stamp_type]
  | Shutdown => exact absurd he h

/-- C5 counterexample: a running daemon whose queue holds only the
internal Shutdown sentinel.  Processing it pops the event, sets busy,
and the Shutdown arm of the dispatch switch clears running and
continues past the busy reset — the loop then exits, leaving busy true
forever although no handler is running any more. -/
def preShutdownState : DaemonState :=
  { runningState with queue := [shutdownEvent] }

/-- C5 counterexample: after the worker loop dispatches the internal
Shutdown event and exits (running is false, the trace shows the event
was popped), the busy flag is still true — the iteration that set
busy=true before dispatching Shutdown never set it back to false,
refuting the claim for the Shutdown variant. -/
theorem busy_shutdown_counterexample :
    (Daemon.worker_loop 1 2 preShutdownState).1.busy = true ∧
    (Daemon.worker_loop 1 2 preShutdownState).1.running = false ∧
    (Daemon.worker_loop 1 2 preShutdownState).2 = [shutdownEvent] :=
  ⟨rfl, rfl, rfl⟩

/-- C5 (amended): every worker-loop iteration that sets busy=true
before dispatch resets busy=false after the handler returns for every
event variant except the internal Shutdown variant (whose dispatch arm
exits the loop leaving busy true): as long as no Shutdown event is
queued, busy is false whenever no handler is running — in particular
whenever the loop is parked or has exited. -/
theorem busy_reset_nonshutdown (now : Int) (fuel : Nat) :
    ∀ s : DaemonState, s.busy = false →
    (∀ e ∈ s.queue, e.type ≠ EventType.Shutdown) →
    (Daemon.worker_loop now fuel s).1.busy = false := by
  induction fuel with
  | zero =>
    intro s hb _
    simpa [Daemon.worker_loop] using hb
  | succ fuel ih =>
    intro s hb hq
    rw [Daemon.worker_loop]
    cases hr : s.running with
    | false => simpa [hr] using hb
    | true =>
      cases hq2 : s.queue with
      | nil => simpa [hr, hq2] using hb
      | cons e rest =>
        have he : e.type ≠ EventType.Shutdown :=
          hq e (by rw [hq2]; exact List.mem_cons_self e rest)
        simp only [hr, hq2, if_true, if_neg he]
        obtain ⟨-, -, extra, hqe, hex⟩ :=
          dispatch_nonshutdown_frame { s with queue := rest, busy := true } e now he
        apply ih
        · rfl
        · intro x hx
          have hx2 : x ∈ rest ++ extra := by
            rw [hr] at hqe
            simpa [hqe] using hx
          rcases List.mem_append.mp hx2 with hxr | hxe
          · exact hq x (by rw [hq2]; exact List.mem_cons_of_mem e hxr)
          · simp [hex x hxe]

/-- A running daemon with one PeerConnected event queued. -/
def connectQueueState : DaemonState :=
  { runningState with queue := [peerConnectedEvent 1 "ann" 1] }

/-- Witness for amended C5: running the loop over a queued PeerConnected
event leaves busy false. -/
theorem busy_reset_nonshutdown_witness :
    (connectQueueState.busy = false ∧
      (∀ e ∈ connectQueueState.queue, e.type ≠ EventType.Shutdown)) ∧
    (Daemon.worker_loop 0 3 connectQueueState).1.busy = false :=
  ⟨⟨rfl, by decide⟩, busy_reset_nonshutdown 0 3 connectQueueState rfl (by decide)⟩

/-- Taking no more than the first list keeps the take inside it. -/
theorem take_append_of_le {α : Type} (n : Nat) (l1 l2 : List α) (h : n ≤ l1.length) :
    (l1 ++ l2).take n = l1.take n := by
  rw [List.take_append_eq_append_take, Nat.sub_eq_zero_of_le h]
  simp

/-- The operation `enqueue_event` never touches the running flag. -/
theorem enqueue_event_running (s : DaemonState) (e : Event) (now : Int) :
    (Daemon.enqueue_event s e now).running = s.running := by
  unfold Daemon.enqueue_event
  split <;> rfl

/-- Submitting a list of events never touches the running flag. -/
theorem enqueue_many_running (s : DaemonState) (evs : List Event) (now : Int) :
    (Daemon.enqueue_many s evs now).running = s.running := by
  induction evs generalizing s with
  | nil => rfl
  | cons e evs ih =>
    unfold Daemon.enqueue_many at ih ⊢
    rw [List.foldl_cons, ih, enqueue_event_running]

/-- On a running daemon, submitting a list of events appends exactly
their stamped forms, in order, at the back of the queue. -/
theorem enqueue_many_queue (s : DaemonState) (evs : List Event) (now : Int)
    (hr : s.running = true) :
    (Daemon.enqueue_many s evs now).queue = s.queue ++ evs.map (Daemon.stamp now) := by
  induction evs generalizing s with
  | nil => simp [Daemon.enqueue_many]
  | cons e evs ih =>
    unfold Daemon.enqueue_many at ih ⊢
    rw [List.foldl_cons]
    have h1 : Daemon.enqueue_event s e now =
        { s with queue := s.queue ++ [Daemon.stamp now e] } := by
      simp [Daemon.enqueue_event, hr]
    rw [h1, ih _ (by rw [← h1, enqueue_event_running]; exact hr)]
    simp

/-- The daemon state at the end of a non-Shutdown worker-loop
iteration that popped `e` off a queue whose tail was `rest`: pop, set
busy, dispatch, clear busy. -/
def after_dispatch (s : DaemonState) (e : Event) (now : Int) (rest : List Event) :
    DaemonState :=
  let s1 : DaemonState := { s with queue := rest, busy := true }
  let s2 := (Daemon.dispatch s1 e now).1
  { s2 with busy := false }

/-- A non-Shutdown iteration keeps the running flag, ends with busy
false, and leaves the popped queue tail followed only by loopback
re-injections (all DataReceived). -/
theorem after_dispatch_spec (s : DaemonState) (e : Event) (now : Int)
    (rest : List Event) (he : e.type ≠ EventType.Shutdown) :
    (after_dispatch s e now rest).running = s.running ∧
    (after_dispatch s e now rest).busy = false ∧
    ∃ extra, (after_dispatch s e now rest).queue = rest ++ extra ∧
      ∀ x ∈ extra, x.type = EventType.DataReceived := by
  obtain ⟨h1, h2, extra, h3, h4⟩ :=
    dispatch_nonshutdown_frame { s with queue := rest, busy := true } e now he
  exact ⟨h1, rfl, extra, h3, h4⟩

/-- Unfolding one running, non-Shutdown iteration of the worker loop. -/
theorem worker_loop_cons (now : Int) (fuel : Nat) (s : DaemonState) (e : Event)
    (rest : List Event) (hr : s.running = true) (hq2 : s.queue = e :: rest)
    (he : e.type ≠ EventType.Shutdown) :
    Daemon.worker_loop now (fuel + 1) s =
      ((Daemon.worker_loop now fuel (after_dispatch s e now rest)).1,
        e :: (Daemon.worker_loop now fuel (after_dispatch s e now rest)).2) := by
  rw [Daemon.worker_loop]
  simp [hr, hq2, he, after_dispatch]

/-- The worker loop pops and dispatches exactly the first `fuel` queued
events, in queue order, as long as the daemon is running and none of
them is the Shutdown sentinel (loopback re-injections land behind them
and cannot overtake). -/
theorem worker_trace_take (now : Int) (fuel : Nat) :
    ∀ s : DaemonState, s.running = true → fuel ≤ s.queue.length →
    (∀ e ∈ s.queue.take fuel, e.type ≠ EventType.Shutdown) →
    (Daemon.worker_loop now fuel s).2 = s.queue.take fuel := by
  induction fuel with
  | zero =>
    intro s _ _ _
    simp [Daemon.worker_loop]
  | succ fuel ih =>
    intro s hr hlen hq
    cases hq2 : s.queue with
    | nil =>
      rw [hq2] at hlen
      exact absurd hlen (by simp)
    | cons e rest =>
      have he : e.type ≠ EventType.Shutdown := by
        apply hq
        rw [hq2, List.take_succ_cons]
        exact List.mem_cons_self e (rest.take fuel)
      obtain ⟨hrun2, -, extra, hqe, -⟩ := after_dispatch_spec s e now rest he
      rw [hr] at hrun2
      have hlen2 : fuel ≤ rest.length := by
        rw [hq2] at hlen
        simpa using hlen
      rw [worker_loop_cons now fuel s e rest hr hq2 he]
      have ihx := ih (after_dispatch s e now rest) hrun2
        (by rw [hqe]; simp only [List.length_append]; omega)
        (by
          intro x hx
          rw [hqe, take_append_of_le fuel rest extra hlen2] at hx
          apply hq
          rw [hq2, List.take_succ_cons]
          exact List.mem_cons_of_mem e hx)
      show e :: (Daemon.worker_loop now fuel (after_dispatch s e now rest)).2
          = List.take (fuel + 1) (e :: rest)
      rw [ihx, hqe, take_append_of_le fuel rest extra hlen2, List.take_succ_cons]

/-- C1: for every sequence of events successfully accepted by
`enqueue_event` on a running daemon (none being the internal Shutdown
sentinel, which no external submission path ever produces), the worker
loop dispatches exactly those events — in their stamped form, as the
queue accepted them — in the exact order they were enqueued: FIFO, with
no priority and no reordering. -/
theorem fifo_dispatch_order (s : DaemonState) (evs : List Event) (now : Int)
    (hr : s.running = true) (hq0 : s.queue = [])
    (hsd : ∀ e ∈ evs, e.type ≠ EventType.Shutdown) :
    (Daemon.worker_loop now evs.length (Daemon.enqueue_many s evs now)).2
      = evs.map (Daemon.stamp now) := by
  have hrun : (Daemon.enqueue_many s evs now).running = true := by
    rw [enqueue_many_running]
    exact hr
  have hq : (Daemon.enqueue_many s evs now).queue = evs.map (Daemon.stamp now) := by
    rw [enqueue_many_queue s evs now hr, hq0, List.nil_append]
  have := worker_trace_take now evs.length (Daemon.enqueue_many s evs now) hrun
    (by rw [hq, List.length_map])
    (by
      intro x hx
      rw [hq] at hx
      have hx2 : x ∈ evs.map (Daemon.stamp now) := List.take_subset _ _ hx
      obtain ⟨e', he', rfl⟩ := List.mem_map.mp hx2
      rw [stamp_type]
      exact hsd e' he')
  rw [this, hq, ← List.length_map evs (Daemon.stamp now), List.take_length]

/-- Witness for C1: three tagged events (connect, data, disconnect)
submitted to a fresh running daemon come back out of the loop in
submission order. -/
theorem fifo_dispatch_order_witness :
    (runningState.running = true ∧ runningState.queue = [] ∧
      (∀ e ∈ [peerConnectedEvent 1 "u1" 1, dataReceivedEvent 1 "hello" 2,
        peerDisconnectedEvent 1 3], e.type ≠ EventType.Shutdown)) ∧
    (Daemon.worker_loop 9
        ([peerConnectedEvent 1 "u1" 1, dataReceivedEvent 1 "hello" 2,
          peerDisconnectedEvent 1 3]).length
        (Daemon.enqueue_many runningState
          [peerConnectedEvent 1 "u1" 1, dataReceivedEvent 1 "hello" 2,
            peerDisconnectedEvent 1 3] 9)).2
      = [peerConnectedEvent 1 "u1" 1, dataReceivedEvent 1 "hello" 2,
          peerDisconnectedEvent 1 3].map (Daemon.stamp 9) :=
  ⟨⟨rfl, rfl, by decide⟩,
    fifo_dispatch_order runningState
      [peerConnectedEvent 1 "u1" 1, dataReceivedEvent 1 "hello" 2,
        peerDisconnectedEvent 1 3] 9 rfl rfl (by decide)⟩

end MeshChat
